import Mathlib

/-!
Verification of the session-backed authentication library
(`nextjs-auth0`-style): a shallow embedding of the Auth-Required Gate
(`src/helpers/with-middleware-auth-required.ts`), the Node response
abstraction (`NodeResponse`), and the configuration validator
(`paramsSchema` / `get`), together with theorems settling the spec claims.

Strings from the JavaScript source are modelled as Lean `String` or as
`List Char` where character-level reasoning is required.
-/

namespace NextAuth

/-! ## Percent encoding: a model of the JavaScript `encodeURIComponent` -/

/-- Characters left unescaped by `encodeURIComponent`:
ASCII letters, digits, and `- _ . ! ~ * ( )` and the apostrophe (code 39). -/
def isURIUnreserved (c : Char) : Bool :=
  c.isAlphanum || c == '-' || c == '_' || c == '.' || c == '!' || c == '~' ||
    c == '*' || c == '(' || c == ')' || c == Char.ofNat 39

/-- UTF-8 byte sequence of a character (as used by `encodeURIComponent`
to percent-encode non-ASCII characters byte by byte). -/
def utf8Bytes (c : Char) : List Nat :=
  let n := c.toNat
  if n < 128 then [n]
  else if n < 2048 then [192 + n / 64, 128 + n % 64]
  else if n < 65536 then [224 + n / 4096, 128 + (n / 64) % 64, 128 + n % 64]
  else [240 + n / 262144, 128 + (n / 4096) % 64, 128 + (n / 64) % 64, 128 + n % 64]

/-- Uppercase hexadecimal digit, as produced by `encodeURIComponent`. -/
def hexDigitUpper (n : Nat) : Char :=
  if n < 10 then Char.ofNat (48 + n) else Char.ofNat (55 + n)

/-- `%HH` escape of one byte. -/
def pctByte (b : Nat) : List Char :=
  ['%', hexDigitUpper (b / 16), hexDigitUpper (b % 16)]

/-- `encodeURIComponent` over a character list. -/
def encodeURIComponentL (cs : List Char) : List Char :=
  (cs.map fun c =>
    if isURIUnreserved c then [c] else ((utf8Bytes c).map pctByte).flatten).flatten

/-- The JavaScript `encodeURIComponent`. -/
def encodeURIComponent (s : String) : String :=
  ⟨encodeURIComponentL s.data⟩

/-- `isPrefixL p s`: is `p` a prefix of `s`? -/
def isPrefixL : List Char → List Char → Bool
  | [], _ => true
  | _ :: _, [] => false
  | p :: ps, c :: cs => p == c && isPrefixL ps cs

/-- JavaScript `s.startsWith(p)`. -/
def startsWithS (s p : String) : Bool :=
  isPrefixL p.data s.data

/-- Does `sub` occur as a contiguous run inside the second list? -/
def containsSub (sub : List Char) : List Char → Bool
  | [] => sub.isEmpty
  | c :: rest => isPrefixL sub (c :: rest) || containsSub sub rest

/-- JavaScript `s.includes(sub)`. -/
def includesStr (s sub : String) : Bool :=
  containsSub sub.data s.data

/-- JavaScript `s.toLowerCase()` (over the ASCII range the configuration
values use). -/
def toLowerS (s : String) : String :=
  ⟨s.data.map Char.toLower⟩

/-! ## `", "`-separated header values

The Fetch `Headers` object stores at most one combined value per header
name; multiple `Set-Cookie` values are combined with `", "`.  The gate
reads the combined value back with `split(', ')` and re-joins with
`join(', ')`; these are the corresponding character-list operations. -/

/-- Prepend a character onto the first piece of a split result. -/
def consHead (c : Char) : List (List Char) → List (List Char)
  | [] => [[c]]
  | h :: t => (c :: h) :: t

/-- JavaScript `s.split(', ')` over a character list: scan left to right,
cutting at each occurrence of `", "`. -/
def splitCS : List Char → List (List Char)
  | [] => [[]]
  | [c] => [[c]]
  | a :: b :: rest =>
    if a == ',' && b == ' ' then [] :: splitCS rest
    else consHead a (splitCS (b :: rest))

/-- JavaScript `parts.join(', ')` over character lists. -/
def joinCS : List (List Char) → List Char
  | [] => []
  | [x] => x
  | x :: y :: t => x ++ ',' :: ' ' :: joinCS (y :: t)

/-- Does the character list contain the substring `", "`? -/
def hasCS : List Char → Bool
  | [] => false
  | [_] => false
  | a :: b :: rest => (a == ',' && b == ' ') || hasCS (b :: rest)

theorem consHead_ne_nil (c : Char) (l : List (List Char)) : consHead c l ≠ [] := by
  cases l <;> simp [consHead]

theorem splitCS_ne_nil (s : List Char) : splitCS s ≠ [] := by
  induction s using splitCS.induct with
  | case1 => simp [splitCS]
  | case2 c => simp [splitCS]
  | case3 a b rest hc ih => simp [splitCS, hc]
  | case4 a b rest hc ih =>
    rw [splitCS, if_neg hc]
    exact consHead_ne_nil a _

theorem splitCS_of_not_hasCS (x : List Char) (hx : hasCS x = false) :
    splitCS x = [x] := by
  induction x using splitCS.induct with
  | case1 => rfl
  | case2 c => rfl
  | case3 a b rest hc ih =>
    rw [hasCS, hc] at hx
    simp at hx
  | case4 a b rest hc ih =>
    have hb : hasCS (b :: rest) = false := by
      rw [hasCS] at hx
      exact (Bool.or_eq_false_iff.mp hx).2
    rw [splitCS, if_neg hc, ih hb, consHead]

theorem splitCS_append_sep (x r : List Char) (hx : hasCS x = false) :
    splitCS (x ++ ',' :: ' ' :: r) = x :: splitCS r := by
  induction x using splitCS.induct with
  | case1 =>
    rw [List.nil_append, splitCS]
    simp
  | case2 c =>
    have h1 : splitCS (c :: ',' :: ' ' :: r) = consHead c (splitCS (',' :: ' ' :: r)) := by
      rw [splitCS]
      rw [show ((',' : Char) == ' ') = false from rfl, Bool.and_false]
      simp
    have h2 : splitCS (',' :: ' ' :: r) = [] :: splitCS r := by
      rw [splitCS]
      simp
    rw [List.cons_append, List.nil_append, h1, h2, consHead]
  | case3 a b rest hc ih =>
    rw [hasCS, hc] at hx
    simp at hx
  | case4 a b rest hc ih =>
    have hb : hasCS (b :: rest) = false := by
      rw [hasCS] at hx
      exact (Bool.or_eq_false_iff.mp hx).2
    have h1 := ih hb
    rw [List.cons_append] at h1
    rw [List.cons_append, List.cons_append, splitCS, if_neg hc, h1, consHead]

theorem splitCS_joinCS (l : List (List Char)) (hne : l ≠ [])
    (h : ∀ x ∈ l, hasCS x = false) : splitCS (joinCS l) = l := by
  induction l with
  | nil => exact absurd rfl hne
  | cons x t ih =>
    cases t with
    | nil =>
      rw [joinCS]
      exact splitCS_of_not_hasCS x (h x (by simp))
    | cons y ys =>
      rw [joinCS, splitCS_append_sep x _ (h x (by simp))]
      rw [ih (by simp) (fun z hz => h z (List.mem_cons_of_mem x hz))]

/-! ## The Auth-Required Gate
(`src/helpers/with-middleware-auth-required.ts`, `wrappedMiddleware`) -/

/-- The parsed request URL (`req.nextUrl`). -/
structure NextUrl where
  pathname : String
  origin : String
  search : String
deriving DecidableEq

/-- The incoming middleware request. -/
structure NextRequest where
  nextUrl : NextUrl
deriving DecidableEq

/-- The identity claims of the authenticated user (opaque to the gate,
which only tests for presence). -/
structure UserProfile where
  claims : List (String × String)
deriving DecidableEq

/-- A session as produced by the session cache; the gate only inspects
`session?.user`. -/
structure Session where
  user : Option UserProfile
deriving DecidableEq

/-- The response returned by the downstream middleware, abstracted to the
fields the gate reads: its status and the combined `set-cookie` header
value of `res.headers` (the Fetch `Headers` object combines multiple
`Set-Cookie` values with `", "`). -/
structure MwResponse where
  status : Nat
  setCookieHeader : Option (List Char)
deriving DecidableEq

/-- The response of one run of the wrapped middleware. -/
inductive GateResult where
  /-- The path was exempt: the gate returns `undefined`. -/
  | skip
  /-- `NextResponse.json` with an error body and a status. -/
  | unauthorizedJson (error : String) (description : String) (status : Nat)
  /-- `NextResponse.redirect` to a location with a status. -/
  | redirect (location : String) (status : Nat)
  /-- `NextResponse.next` built from the downstream response with the
  merged headers: carries the downstream status and the final combined
  `set-cookie` header value. -/
  | forward (status : Nat) (setCookieHeader : Option (List Char))
  /-- The gate returned `authRes` itself: carries the combined
  `set-cookie` header written during session resolution. -/
  | auth (setCookieHeader : Option (List Char))
deriving DecidableEq

/-- A gate run together with whether the downstream middleware was
invoked. -/
structure GateOutput where
  invokedDownstream : Bool
  result : GateResult
deriving DecidableEq

/-- Model of `new URL(rel, origin).toString()` for the references built by
the gate: a path-relative reference (the configured login route always
starts with `/`) resolved against an origin base URL. -/
def newURL (rel base : String) : String := base ++ rel

/-- The combined `set-cookie` value a Fetch `Headers` object reports for a
list of individual `Set-Cookie` values: `null` when none, otherwise the
values joined with `", "`. -/
def headersGetSC (l : List (List Char)) : Option (List Char) :=
  match l with
  | [] => none
  | _ => some (joinCS l)

/-- The list of individual cookie values carried by a combined
`set-cookie` header value, recovered with `split(', ')`. -/
def optCookies (o : Option (List Char)) : List (List Char) :=
  match o with
  | none => []
  | some s => splitCS s

/-- Shallow embedding of `wrappedMiddleware` from
`src/helpers/with-middleware-auth-required.ts`.

Inputs model the suspension points of the original:
* `session` is what `sessionCache.get(req, authRes)` resolved;
* `authSC` is the combined `set-cookie` header of `authRes` after session
  resolution (rolling-renewal cookie writes land there);
* `middleware` is `none` when no downstream middleware was supplied, and
  otherwise carries the (possibly `undefined`) response it returned. -/
def wrappedMiddleware (login callback : String) (req : NextRequest)
    (session : Option Session) (authSC : Option (List Char))
    (middleware : Option (Option MwResponse)) : GateOutput :=
  let pathname := req.nextUrl.pathname
  let origin := req.nextUrl.origin
  let search := req.nextUrl.search
  if ([login, callback, "/_next", "/favicon.ico"].any fun p => startsWithS pathname p) then
    { invokedDownstream := false, result := .skip }
  else if (session.bind Session.user).isNone then
    if startsWithS pathname "/api" then
      { invokedDownstream := false,
        result := .unauthorizedJson "not_authenticated"
          "The user does not have an active session or is not authenticated" 401 }
    else
      { invokedDownstream := false,
        result := .redirect
          (newURL (login ++ "?returnTo=" ++ encodeURIComponent (pathname ++ search)) origin)
          302 }
  else
    match middleware with
    | none => { invokedDownstream := false, result := .auth authSC }
    | some mres =>
      match mres with
      | none => { invokedDownstream := true, result := .auth authSC }
      | some res =>
        let cookies := optCookies res.setCookieHeader
        let authCookies := optCookies authSC
        if cookies ≠ [] ∨ authCookies ≠ [] then
          { invokedDownstream := true,
            result := .forward res.status (some (joinCS (authCookies ++ cookies))) }
        else
          { invokedDownstream := true, result := .forward res.status res.setCookieHeader }

/-! ## The Node response abstraction (`NodeResponse`) -/

/-- A Node header value as returned by `res.getHeader`: either a single
string or an array of strings. -/
inductive HeaderVal where
  | str (s : List Char)
  | arr (l : List (List Char))
deriving DecidableEq

/-- The state of the underlying `ServerResponse` that `NodeResponse`
reads and writes: finalization flag, status code, the `Location` and
`Set-Cookie` headers, and the written body. -/
structure NodeRes where
  writableEnded : Bool
  statusCode : Nat
  location : Option String
  setCookieHdr : Option HeaderVal
  body : Option String
deriving DecidableEq

/-- The `Set-Cookie` entries currently on the response, normalized to an
array exactly as `NodeResponse.setCookie` does
(`getHeader('Set-Cookie') || []`, wrapping a lone string). -/
def cookieEntries (r : NodeRes) : List (List Char) :=
  match r.setCookieHdr with
  | none => []
  | some (.str s) => [s]
  | some (.arr l) => l

/-- The `cookie` package `serialize(name, value)`: `name=` followed by the
URL-encoded value (the package encodes values with `encodeURIComponent`;
attribute serialization from the options object is not involved in the
claims and appends after the value). -/
def serializeCookie (name value : String) : List Char :=
  name.data ++ '=' :: encodeURIComponentL value.data

/-- `NodeResponse.setCookie(name, value)`: read the current `Set-Cookie`
entries, drop every entry starting with `name=`, and append the freshly
serialized cookie. -/
def NodeRes.setCookie (r : NodeRes) (name value : String) : NodeRes :=
  let cookies := cookieEntries r
  { r with
    setCookieHdr := some (.arr
      (cookies.filter (fun c => !(isPrefixL (name.data ++ ['=']) c)) ++
        [serializeCookie name value])) }

/-- Modelled from the spec: `htmlSafe` (imported by `NodeResponse` from
the utilities module `../utils/errors`, which is not among the sample
sources) HTML-escapes its input before it is written into a fallback
body, per the Response Abstraction contract. One character is escaped at
a time. -/
def htmlEscapeChar (c : Char) : List Char :=
  if c == '&' then "&amp;".data
  else if c == '<' then "&lt;".data
  else if c == '>' then "&gt;".data
  else if c == '"' then "&quot;".data
  else if c == Char.ofNat 39 then "&#39;".data
  else [c]

/-- Modelled from the spec: `htmlSafe` HTML-escapes a string. -/
def htmlSafe (s : String) : String :=
  ⟨(s.data.map htmlEscapeChar).flatten⟩

/-- `NodeResponse.redirect(location, status)` (the call-site default for
`status` is `302`): a no-op when the response is already finalized;
otherwise `writeHead(status, Location: getHeader('Location') || location)`
followed by `end(htmlSafe(location))`. An existing `Location` header
value wins over the argument only when it is truthy (a set but empty
header is falsy in JavaScript). -/
def NodeRes.redirect (r : NodeRes) (location : String) (status : Nat) : NodeRes :=
  if r.writableEnded then r
  else
    { r with
      statusCode := status
      location := some (match r.location with
        | some l => if l == "" then location else l
        | none => location)
      body := some (htmlSafe location)
      writableEnded := true }

/-- The name of a `Set-Cookie` entry: the characters before the first
`=`. -/
def entryNameL (e : List Char) : List Char :=
  e.takeWhile (fun c => c != '=')

/-! ## The configuration validator (`paramsSchema` and `get`)

The raw configuration mirrors `ConfigParameters` (every field optional);
`validateConfig` mirrors `paramsSchema.validate` with Joi's default
abort-early behaviour (the first failing field produces the error that
`get` then throws as a `TypeError`), applying the schema checks in the
order the keys are declared. -/

/-- A JavaScript value that is either a number or a boolean
(`session.rollingDuration` and `session.absoluteDuration` range over
these). -/
inductive NumOrBool where
  | num (n : Int)
  | bool (b : Bool)
deriving DecidableEq

/-- The `secret` field: a single key or an array of keys (binary key
material is represented by its string form). -/
inductive SecretVal where
  | str (s : String)
  | arr (l : List String)
deriving DecidableEq

/-- A route that is either a relative path or disabled with `false`. -/
inductive PathOrFalse where
  | path (s : String)
  | disabled
deriving DecidableEq

structure RawCookieConfig where
  domain : Option String := none
  transient : Option Bool := none
  httpOnly : Option Bool := none
  sameSite : Option String := none
  secure : Option Bool := none
  path : Option String := none
deriving DecidableEq

structure RawSessionConfig where
  rolling : Option Bool := none
  rollingDuration : Option NumOrBool := none
  absoluteDuration : Option NumOrBool := none
  name : Option String := none
  cookie : Option RawCookieConfig := none
deriving DecidableEq

structure RawAuthorizationParams where
  response_type : Option String := none
  scope : Option String := none
  response_mode : Option String := none
deriving DecidableEq

structure RawRoutes where
  login : Option PathOrFalse := none
  logout : Option PathOrFalse := none
  callback : Option String := none
  postLogoutRedirect : Option String := none
deriving DecidableEq

/-- The raw, user-supplied configuration object (`ConfigParameters`). -/
structure RawConfig where
  secret : Option SecretVal := none
  session : Option RawSessionConfig := none
  auth0Logout : Option Bool := none
  authorizationParams : Option RawAuthorizationParams := none
  baseURL : Option String := none
  clientID : Option String := none
  clientSecret : Option String := none
  clockTolerance : Option Int := none
  enableTelemetry : Option Bool := none
  errorOnRequiredAuth : Option Bool := none
  attemptSilentLogin : Option Bool := none
  identityClaimFilter : Option (List String) := none
  idpLogout : Option Bool := none
  idTokenSigningAlg : Option String := none
  issuerBaseURL : Option String := none
  legacySameSiteCookie : Option Bool := none
  authRequired : Option Bool := none
  routes : Option RawRoutes := none
deriving DecidableEq

structure CookieConfig where
  domain : Option String
  transient : Bool
  httpOnly : Bool
  sameSite : String
  secure : Option Bool
  path : Option String
deriving DecidableEq

structure SessionConfig where
  rolling : Bool
  rollingDuration : NumOrBool
  absoluteDuration : NumOrBool
  name : String
  cookie : CookieConfig
deriving DecidableEq

structure AuthorizationParams where
  response_type : String
  scope : String
  response_mode : Option String
deriving DecidableEq

structure Routes where
  login : PathOrFalse
  logout : PathOrFalse
  callback : String
  postLogoutRedirect : String
deriving DecidableEq

/-- The validated, fully defaulted configuration record (`Config`); the
`getLoginState` function field is not representable and carries no
validated data. -/
structure Config where
  secret : SecretVal
  session : SessionConfig
  auth0Logout : Bool
  authorizationParams : AuthorizationParams
  baseURL : String
  clientID : String
  clientSecret : Option String
  clockTolerance : Int
  enableTelemetry : Bool
  errorOnRequiredAuth : Bool
  attemptSilentLogin : Bool
  identityClaimFilter : List String
  idpLogout : Bool
  idTokenSigningAlg : String
  issuerBaseURL : String
  legacySameSiteCookie : Bool
  authRequired : Bool
  routes : Routes
deriving DecidableEq

/-- Joi `string().uri()`, simplified to the shape the configuration URLs
take: a nonempty alphabetic scheme followed by `://`. -/
def isAbsoluteUri (s : String) : Bool :=
  let scheme := s.data.takeWhile Char.isAlpha
  !scheme.isEmpty && isPrefixL "://".data (s.data.drop scheme.length)

/-- Joi `string().token()`: letters, digits and underscores only. -/
def isToken (s : String) : Bool :=
  s.data.all fun c => c.isAlphanum || c == '_'

/-- Is `c` a regular-expression word character (`\w`)? -/
def isWordChar (c : Char) : Bool :=
  c.isAlphanum || c == '_'

/-- Maximal word-character runs of a string, used to evaluate the
`/\bopenid\b/` pattern on `authorizationParams.scope`. -/
def wordRuns : List Char → List (List Char)
  | [] => [[]]
  | c :: rest =>
    if isWordChar c then consHead c (wordRuns rest)
    else [] :: wordRuns rest

/-- The `/\bopenid\b/` scope pattern: some maximal word run is exactly
`openid`. -/
def scopeHasOpenid (s : String) : Bool :=
  (wordRuns s.data).any fun w => w == "openid".data

/-- `secret`: required; a key (or every key of an array) of at least 8
characters. -/
def checkSecret : Option SecretVal → Except String SecretVal
  | none => .error "\"secret\" is required"
  | some (.str s) =>
    if s.length ≥ 8 then .ok (.str s)
    else .error "\"secret\" does not match any of the allowed types"
  | some (.arr l) =>
    if l.all (fun s => s.length ≥ 8) then .ok (.arr l)
    else .error "\"secret\" does not match any of the allowed types"

def defaultCookieConfig : CookieConfig :=
  { domain := none, transient := false, httpOnly := true, sameSite := "Lax",
    secure := none, path := none }

/-- `session.cookie.sameSite`: limited to `Lax`/`Strict`/`None`,
defaulting to `Lax`. -/
def checkSameSite : Option String → Except String String
  | none => .ok "Lax"
  | some s =>
    if s == "Lax" || s == "Strict" || s == "None" then .ok s
    else .error "\"session.cookie.sameSite\" must be one of [Lax, Strict, None]"

/-- `session.cookie.path`: a relative URI when present. -/
def checkCookiePath : Option String → Except String (Option String)
  | none => .ok none
  | some p =>
    if isAbsoluteUri p then .error "\"session.cookie.path\" must be a valid relative uri"
    else .ok (some p)

/-- `session.cookie`: defaults `transient=false`, `httpOnly=true`,
`sameSite=Lax`. -/
def checkCookie : Option RawCookieConfig → Except String CookieConfig
  | none => .ok defaultCookieConfig
  | some rc => do
    let sameSite ← checkSameSite rc.sameSite
    let path ← checkCookiePath rc.path
    Except.ok
      { domain := rc.domain, transient := rc.transient.getD false,
        httpOnly := rc.httpOnly.getD true, sameSite := sameSite,
        secure := rc.secure, path := path }

/-- `session.rollingDuration`: an integer when `rolling` and the literal
`false` when not, defaulting by `parent.rolling` to `86400` or `false`. -/
def checkRollingDuration (rolling : Bool) : Option NumOrBool → Except String NumOrBool
  | none => .ok (if rolling then NumOrBool.num 86400 else NumOrBool.bool false)
  | some v =>
    if rolling then
      match v with
      | .num n => .ok (NumOrBool.num n)
      | .bool _ =>
        .error "\"session.rollingDuration\" must be provided an integer value when \"session.rolling\" is true"
    else
      match v with
      | .bool false => .ok (NumOrBool.bool false)
      | _ =>
        .error "\"session.rollingDuration\" must be false when \"session.rolling\" is disabled"

/-- `session.absoluteDuration`: an integer when not rolling and an
integer or the literal `false` when rolling; an omitted value always
takes the default `604800`. -/
def checkAbsoluteDuration (rolling : Bool) : Option NumOrBool → Except String NumOrBool
  | none => .ok (NumOrBool.num 604800)
  | some v =>
    if rolling then
      match v with
      | .num n => .ok (NumOrBool.num n)
      | .bool false => .ok (NumOrBool.bool false)
      | .bool true =>
        .error "\"session.absoluteDuration\" does not match any of the allowed types"
    else
      match v with
      | .num n => .ok (NumOrBool.num n)
      | .bool _ =>
        .error "\"session.absoluteDuration\" must be provided an integer value when \"session.rolling\" is false"

/-- `session.name`: a token, defaulting to `appSession`. -/
def checkSessionName : Option String → Except String String
  | none => .ok "appSession"
  | some n =>
    if isToken n then .ok n
    else .error "\"session.name\" must only contain alpha-numeric characters"

/-- `session`: `rolling` defaults to `true`; the remaining fields are
checked against the defaulted `rolling` in key order. -/
def checkSession (rs : Option RawSessionConfig) : Except String SessionConfig :=
  let r := rs.getD {}
  let rolling := r.rolling.getD true
  do
  let rollingDuration ← checkRollingDuration rolling r.rollingDuration
  let absoluteDuration ← checkAbsoluteDuration rolling r.absoluteDuration
  let name ← checkSessionName r.name
  let cookie ← checkCookie r.cookie
  Except.ok { rolling := rolling, rollingDuration := rollingDuration,
              absoluteDuration := absoluteDuration, name := name, cookie := cookie }

/-- `authorizationParams.response_type`: limited to the three flows,
defaulting to `id_token`. -/
def checkResponseType : Option String → Except String String
  | none => .ok "id_token"
  | some t =>
    if t == "id_token" || t == "code id_token" || t == "code" then .ok t
    else .error "\"authorizationParams.response_type\" must be one of [id_token, code id_token, code]"

/-- `authorizationParams.scope`: must contain the word `openid`,
defaulting to `openid profile email`. -/
def checkScope : Option String → Except String String
  | none => .ok "openid profile email"
  | some s =>
    if scopeHasOpenid s then .ok s
    else .error "\"authorizationParams.scope\" with value fails to match the contains openid pattern"

/-- `authorizationParams.response_mode`: must be `query` when the
(defaulted) `response_type` is `code` — with no default of its own — and
must be `form_post` otherwise, defaulting to `form_post`. -/
def checkResponseMode (response_type : String) : Option String → Except String (Option String)
  | none =>
    if response_type == "code" then .ok none
    else .ok (some "form_post")
  | some m =>
    if response_type == "code" then
      if m == "query" then .ok (some "query")
      else .error "\"authorizationParams.response_mode\" must be one of [query]"
    else
      if m == "form_post" then .ok (some "form_post")
      else .error "\"authorizationParams.response_mode\" must be one of [form_post]"

/-- `authorizationParams`: field checks in key order against the
defaulted sibling values. -/
def checkAuthParams (rap : Option RawAuthorizationParams) : Except String AuthorizationParams :=
  let r := rap.getD {}
  do
  let response_type ← checkResponseType r.response_type
  let scope ← checkScope r.scope
  let response_mode ← checkResponseMode response_type r.response_mode
  Except.ok { response_type := response_type, scope := scope, response_mode := response_mode }

/-- A required URI-valued field (`baseURL`, `issuerBaseURL`). -/
def checkRequiredUri (field : String) : Option String → Except String String
  | none => .error ("\"" ++ field ++ "\" is required")
  | some s =>
    if isAbsoluteUri s then .ok s
    else .error ("\"" ++ field ++ "\" must be a valid uri")

/-- `clientID`: required. -/
def checkClientID : Option String → Except String String
  | none => .error "\"clientID\" is required"
  | some s => .ok s

/-- Does the raw `idTokenSigningAlg` start with `HS`?  The `clientSecret`
condition reads the sibling key before it has been defaulted (Joi
resolves the reference against the raw value, defaulting
`idTokenSigningAlg` only later in key order), guarded by
`value && value.startsWith('HS')`. -/
def rawAlgIsHS (o : Option String) : Bool :=
  match o with
  | some a => startsWithS a "HS"
  | none => false

/-- `clientSecret`: required when the resolved `response_type` includes
`code`, and when the raw `idTokenSigningAlg` is HMAC-based; the two
`when` clauses are checked in that order. -/
def checkClientSecret (cs : Option String) (response_type : String)
    (rawAlg : Option String) : Except String (Option String) :=
  match cs with
  | some s => .ok (some s)
  | none =>
    if includesStr response_type "code" then
      .error "\"clientSecret\" is required for a response_type that includes code"
    else if rawAlgIsHS rawAlg then
      .error "\"clientSecret\" is required for ID tokens with HMAC based algorithms"
    else .ok none

/-- `idTokenSigningAlg`: `not('none')` with `insensitive()` matching,
defaulting to `RS256`. -/
def checkIdTokenSigningAlg : Option String → Except String String
  | none => .ok "RS256"
  | some s =>
    if toLowerS s == "none" then .error "\"idTokenSigningAlg\" contains an invalid value"
    else .ok s

/-- `routes.login` / `routes.logout`: a relative path or `false`. -/
def checkRoutePathOrFalse (field : String) (v : Option PathOrFalse)
    (dflt : PathOrFalse) : Except String PathOrFalse :=
  match v with
  | none => .ok dflt
  | some (.path s) =>
    if isAbsoluteUri s then .error ("\"" ++ field ++ "\" does not match any of the allowed types")
    else .ok (.path s)
  | some .disabled => .ok .disabled

/-- `routes.callback`: a relative path, defaulting to `/callback`. -/
def checkRouteCallback : Option String → Except String String
  | none => .ok "/callback"
  | some s =>
    if isAbsoluteUri s then .error "\"routes.callback\" must be a valid relative uri"
    else .ok s

/-- `routes`: `login`, `logout` and `callback` default to `/login`,
`/logout` and `/callback`; `postLogoutRedirect` may be absolute or
relative and defaults to the empty string. -/
def checkRoutes (rr : Option RawRoutes) : Except String Routes :=
  let r := rr.getD {}
  do
  let login ← checkRoutePathOrFalse "routes.login" r.login (.path "/login")
  let logout ← checkRoutePathOrFalse "routes.logout" r.logout (.path "/logout")
  let callback ← checkRouteCallback r.callback
  Except.ok { login := login, logout := logout, callback := callback,
              postLogoutRedirect := r.postLogoutRedirect.getD "" }

/-- The standard OIDC registered-claim filter default. -/
def defaultIdentityClaimFilter : List String :=
  ["aud", "iss", "iat", "exp", "nbf", "nonce", "azp", "auth_time", "s_hash", "at_hash", "c_hash"]

/-- `paramsSchema.validate` followed by the throw in `get`: the fields
are checked in schema key order, stopping at the first error (Joi
abort-early); on success the fully defaulted `Config` is returned. -/
def validateConfig (r : RawConfig) : Except String Config := do
  let secret ← checkSecret r.secret
  let session ← checkSession r.session
  let auth0Logout := r.auth0Logout.getD false
  let authorizationParams ← checkAuthParams r.authorizationParams
  let baseURL ← checkRequiredUri "baseURL" r.baseURL
  let clientID ← checkClientID r.clientID
  let clientSecret ← checkClientSecret r.clientSecret authorizationParams.response_type r.idTokenSigningAlg
  let idTokenSigningAlg ← checkIdTokenSigningAlg r.idTokenSigningAlg
  let issuerBaseURL ← checkRequiredUri "issuerBaseURL" r.issuerBaseURL
  let routes ← checkRoutes r.routes
  Except.ok
    { secret := secret, session := session, auth0Logout := auth0Logout,
      authorizationParams := authorizationParams, baseURL := baseURL,
      clientID := clientID, clientSecret := clientSecret,
      clockTolerance := r.clockTolerance.getD 60,
      enableTelemetry := r.enableTelemetry.getD true,
      errorOnRequiredAuth := r.errorOnRequiredAuth.getD false,
      attemptSilentLogin := r.attemptSilentLogin.getD false,
      identityClaimFilter := r.identityClaimFilter.getD defaultIdentityClaimFilter,
      idpLogout := r.idpLogout.getD auth0Logout,
      idTokenSigningAlg := idTokenSigningAlg, issuerBaseURL := issuerBaseURL,
      legacySameSiteCookie := r.legacySameSiteCookie.getD true,
      authRequired := r.authRequired.getD true, routes := routes }

/-- Is the validation result a success? -/
def isOkE (e : Except String Config) : Bool :=
  match e with
  | .ok _ => true
  | .error _ => false

/-! ## Helper lemmas -/

theorem ok_bind {α β : Type} (a : α) (f : α → Except String β) :
    (Except.ok a : Except String α) >>= f = f a := rfl

theorem error_bind {α β : Type} (e : String) (f : α → Except String β) :
    (Except.error e : Except String α) >>= f = Except.error e := rfl

theorem bind_ok_ex {α β : Type} {x : Except String α} {f : α → Except String β} {b : β}
    (h : x >>= f = .ok b) : ∃ a, x = .ok a ∧ f a = .ok b := by
  cases x with
  | error e => rw [error_bind] at h; exact absurd h (by simp)
  | ok a => exact ⟨a, rfl, by rwa [ok_bind] at h⟩

/-! ## Claims about the Auth-Required Gate -/

/-- C1: for a request whose path starts with no exempt prefix and whose
session resolution yields no session with a user, the gate never invokes
the downstream middleware; on an `/api`-prefixed path it answers with the
401 `not_authenticated` JSON, and on every other path with a 302 redirect
to the login route carrying the URL-encoded original path and query in
`returnTo`. -/
theorem gate_unauthenticated_no_downstream (login callback : String) (req : NextRequest)
    (session : Option Session) (authSC : Option (List Char))
    (middleware : Option (Option MwResponse))
    (hexempt : ([login, callback, "/_next", "/favicon.ico"].any
      fun p => startsWithS req.nextUrl.pathname p) = false)
    (hsess : session.bind Session.user = none) :
    (wrappedMiddleware login callback req session authSC middleware).invokedDownstream = false ∧
    (startsWithS req.nextUrl.pathname "/api" = true →
      (wrappedMiddleware login callback req session authSC middleware).result =
        GateResult.unauthorizedJson "not_authenticated"
          "The user does not have an active session or is not authenticated" 401) ∧
    (startsWithS req.nextUrl.pathname "/api" = false →
      (wrappedMiddleware login callback req session authSC middleware).result =
        GateResult.redirect
          (newURL (login ++ "?returnTo=" ++
              encodeURIComponent (req.nextUrl.pathname ++ req.nextUrl.search))
            req.nextUrl.origin)
          302) := by
  cases hapi : startsWithS req.nextUrl.pathname "/api" <;>
    simp [wrappedMiddleware, hexempt, hsess, hapi]

def reqPrivate : NextRequest :=
  { nextUrl := { pathname := "/private", origin := "https://example.com", search := "" } }

def reqApiPrivate : NextRequest :=
  { nextUrl := { pathname := "/api/private", origin := "https://example.com", search := "" } }

theorem gate_unauthenticated_witness :
    (wrappedMiddleware "/login" "/callback" reqPrivate none none none).invokedDownstream
        = false ∧
    (wrappedMiddleware "/login" "/callback" reqPrivate none none none).result =
      GateResult.redirect "https://example.com/login?returnTo=%2Fprivate" 302 ∧
    (wrappedMiddleware "/login" "/callback" reqApiPrivate none none none).result =
      GateResult.unauthorizedJson "not_authenticated"
        "The user does not have an active session or is not authenticated" 401 := by
  have h1 := gate_unauthenticated_no_downstream "/login" "/callback" reqPrivate
    none none none (by decide) rfl
  have h2 := gate_unauthenticated_no_downstream "/login" "/callback" reqApiPrivate
    none none none (by decide) rfl
  refine ⟨h1.1, ?_, h2.2.1 (by decide)⟩
  rw [h1.2.2 (by decide)]
  rfl

/-- C2: with a session present and the downstream middleware returning a
response, the final response carries the `Set-Cookie` values written
during session resolution first and those of the downstream response
after them (provided no individual cookie value contains the `", "`
combiner, under which the header round-trips through `split`/`join`). -/
theorem gate_merges_resolution_cookies_first (login callback : String) (req : NextRequest)
    (u : UserProfile) (A B : List (List Char)) (res : MwResponse)
    (hexempt : ([login, callback, "/_next", "/favicon.ico"].any
      fun p => startsWithS req.nextUrl.pathname p) = false)
    (hA : ∀ c ∈ A, hasCS c = false) (hB : ∀ c ∈ B, hasCS c = false)
    (hres : res.setCookieHeader = headersGetSC B) :
    (wrappedMiddleware login callback req (some { user := some u }) (headersGetSC A)
      (some (some res))).invokedDownstream = true ∧
    (wrappedMiddleware login callback req (some { user := some u }) (headersGetSC A)
      (some (some res))).result = GateResult.forward res.status (headersGetSC (A ++ B)) ∧
    optCookies (headersGetSC (A ++ B)) = A ++ B := by
  have hAB : ∀ c ∈ A ++ B, hasCS c = false := by
    intro c hc
    rcases List.mem_append.mp hc with h | h
    · exact hA c h
    · exact hB c h
  have hcookies : optCookies res.setCookieHeader = B := by
    rw [hres]
    cases B with
    | nil => rfl
    | cons b bs =>
      have h1 : optCookies (headersGetSC (b :: bs)) = splitCS (joinCS (b :: bs)) := rfl
      rw [h1]
      exact splitCS_joinCS (b :: bs) (List.cons_ne_nil b bs) hB
  have hauth : optCookies (headersGetSC A) = A := by
    cases A with
    | nil => rfl
    | cons a as =>
      have h1 : optCookies (headersGetSC (a :: as)) = splitCS (joinCS (a :: as)) := rfl
      rw [h1]
      exact splitCS_joinCS (a :: as) (List.cons_ne_nil a as) hA
  have hgate : wrappedMiddleware login callback req (some { user := some u })
      (headersGetSC A) (some (some res)) =
      (if B ≠ [] ∨ A ≠ [] then
        { invokedDownstream := true,
          result := GateResult.forward res.status (some (joinCS (A ++ B))) }
      else
        { invokedDownstream := true,
          result := GateResult.forward res.status res.setCookieHeader } : GateOutput) := by
    simp only [wrappedMiddleware, hexempt, hcookies, hauth]
    simp
  refine ⟨?_, ?_, ?_⟩
  · rw [hgate]
    by_cases hc : B ≠ [] ∨ A ≠ []
    · rw [if_pos hc]
    · rw [if_neg hc]
  · rw [hgate]
    by_cases hc : B ≠ [] ∨ A ≠ []
    · rw [if_pos hc]
      have hne : A ++ B ≠ [] := by
        rcases hc with h | h
        · exact fun hnil => h (List.append_eq_nil.mp hnil).2
        · exact fun hnil => h (List.append_eq_nil.mp hnil).1
      cases hab : A ++ B with
      | nil => exact absurd hab hne
      | cons x xs => rfl
    · rw [if_neg hc]
      push_neg at hc
      obtain ⟨hBnil, hAnil⟩ := hc
      rw [hres, hBnil, hAnil]
      rfl
  · cases hab : A ++ B with
    | nil => rfl
    | cons x xs =>
      have hne : A ++ B ≠ [] := by rw [hab]; exact List.cons_ne_nil x xs
      have h1 : optCookies (headersGetSC (x :: xs)) = splitCS (joinCS (x :: xs)) := rfl
      rw [h1, ← hab, splitCS_joinCS (A ++ B) hne hAB]

def userAlice : UserProfile := { claims := [("sub", "alice")] }

def mwRes0 : MwResponse := { status := 200, setCookieHeader := some "hl=en".data }

theorem gate_merge_witness :
    (wrappedMiddleware "/login" "/callback" reqPrivate (some { user := some userAlice })
      (headersGetSC ["appSession=abc".data]) (some (some mwRes0))).invokedDownstream = true ∧
    (wrappedMiddleware "/login" "/callback" reqPrivate (some { user := some userAlice })
      (headersGetSC ["appSession=abc".data]) (some (some mwRes0))).result =
      GateResult.forward 200 (some "appSession=abc, hl=en".data) := by
  have h := gate_merges_resolution_cookies_first "/login" "/callback" reqPrivate userAlice
    ["appSession=abc".data] ["hl=en".data] mwRes0 (by decide)
    (by decide) (by decide) rfl
  refine ⟨h.1, ?_⟩
  rw [h.2.1]
  rfl

/-! ## Claims about the Node response abstraction -/

theorem isPrefixL_append (p t : List Char) : isPrefixL p (p ++ t) = true := by
  induction p with
  | nil => rfl
  | cons c cs ih => simp [isPrefixL, ih]

theorem isPrefixL_iff_exists (p s : List Char) :
    isPrefixL p s = true ↔ ∃ t, s = p ++ t := by
  induction p generalizing s with
  | nil => simp [isPrefixL]
  | cons c cs ih =>
    cases s with
    | nil =>
      simp only [isPrefixL]
      constructor
      · intro h
        exact absurd h (by simp)
      · rintro ⟨t, ht⟩
        exact absurd ht (by simp)
    | cons d ds =>
      rw [isPrefixL, Bool.and_eq_true, beq_iff_eq]
      constructor
      · rintro ⟨hcd, hp⟩
        obtain ⟨t, ht⟩ := (ih ds).mp hp
        subst hcd
        exact ⟨t, by rw [ht]; rfl⟩
      · rintro ⟨t, ht⟩
        rw [List.cons_append] at ht
        injection ht with h1 h2
        exact ⟨h1.symm, (ih ds).mpr ⟨t, h2⟩⟩

/-- A `Set-Cookie` entry containing `=` splits as its name, `=`, and a
remainder. -/
theorem wellformed_decompose (e : List Char) (he : '=' ∈ e) :
    ∃ t, e = entryNameL e ++ '=' :: t := by
  induction e with
  | nil => cases he
  | cons c cs ih =>
    by_cases hc : c = '='
    · subst hc
      refine ⟨cs, ?_⟩
      rw [entryNameL]
      simp [List.takeWhile]
    · have hcs : '=' ∈ cs := by
        rcases List.mem_cons.mp he with h | h
        · exact absurd h.symm hc
        · exact h
      obtain ⟨t, ht⟩ := ih hcs
      refine ⟨t, ?_⟩
      have hcb : (c != '=') = true := by
        rw [bne_iff_ne]
        exact hc
      rw [entryNameL] at ht ⊢
      rw [List.takeWhile_cons, hcb]
      simp only [if_true]
      rw [List.cons_append]
      exact congrArg (c :: ·) ht

theorem entryNameL_name_append (n rest : List Char) (hn : '=' ∉ n) :
    entryNameL (n ++ '=' :: rest) = n := by
  induction n with
  | nil =>
    rw [List.nil_append, entryNameL]
    simp [List.takeWhile]
  | cons c cs ih =>
    have hc : (c != '=') = true := by
      rw [bne_iff_ne]
      intro h
      exact hn (h ▸ List.mem_cons_self c cs)
    have hcs : '=' ∉ cs := fun h => hn (List.mem_cons_of_mem c h)
    rw [List.cons_append, entryNameL, List.takeWhile_cons, hc]
    simp only [if_true]
    rw [entryNameL] at ih
    exact congrArg (c :: ·) (ih hcs)

/-- For a well-formed entry, starting with `name=` is the same as having
`name` as its cookie name. -/
theorem prefix_iff_entryName (nm e : List Char) (hn : '=' ∉ nm) (he : '=' ∈ e) :
    isPrefixL (nm ++ ['=']) e = true ↔ entryNameL e = nm := by
  constructor
  · intro h
    obtain ⟨t, ht⟩ := (isPrefixL_iff_exists _ _).mp h
    rw [ht, List.append_assoc, List.singleton_append]
    exact entryNameL_name_append nm t hn
  · intro h
    obtain ⟨t, ht⟩ := wellformed_decompose e he
    rw [h] at ht
    rw [ht]
    refine (isPrefixL_iff_exists _ _).mpr ⟨t, ?_⟩
    rw [List.append_assoc, List.singleton_append]

/-- C3: `setCookie` replaces rather than appends: after setting `name` to
`v1` and then to `v2` (on a response whose existing entries are
well-formed `name=value` pairs and for a cookie name containing no `=`),
exactly one entry carries that name — the serialization of `v2` — and the
entries of every other name are exactly those of the original state. -/
theorem setCookie_replaces_same_name (r : NodeRes) (name v1 v2 : String)
    (hwf : ∀ e ∈ cookieEntries r, '=' ∈ e) (hname : '=' ∉ name.data) :
    (cookieEntries ((r.setCookie name v1).setCookie name v2)).filter
        (fun e => entryNameL e == name.data) = [serializeCookie name v2] ∧
    (cookieEntries ((r.setCookie name v1).setCookie name v2)).filter
        (fun e => entryNameL e != name.data) =
      (cookieEntries r).filter (fun e => entryNameL e != name.data) := by
  set nm := name.data with hnm
  set P : List Char → Bool := fun c => !(isPrefixL (nm ++ ['=']) c) with hP
  have hser : ∀ v : String, serializeCookie name v = nm ++ '=' :: encodeURIComponentL v.data :=
    fun v => rfl
  have hPser : ∀ v : String, P (serializeCookie name v) = false := by
    intro v
    have h := isPrefixL_append (nm ++ ['=']) (encodeURIComponentL v.data)
    rw [List.append_assoc, List.singleton_append] at h
    rw [hP]
    simp only
    rw [hser, h]
    rfl
  have hentries : cookieEntries ((r.setCookie name v1).setCookie name v2) =
      (cookieEntries r).filter P ++ [serializeCookie name v2] := by
    have h1 : cookieEntries (r.setCookie name v1) =
        (cookieEntries r).filter P ++ [serializeCookie name v1] := rfl
    have h2 : cookieEntries ((r.setCookie name v1).setCookie name v2) =
        (cookieEntries (r.setCookie name v1)).filter P ++ [serializeCookie name v2] := rfl
    rw [h2, h1, List.filter_append, List.filter_filter]
    have h3 : (cookieEntries r).filter (fun a => P a && P a) = (cookieEntries r).filter P := by
      apply List.filter_congr
      intro e _
      rw [Bool.and_self]
    have h4 : [serializeCookie name v1].filter P = [] := by
      rw [List.filter_cons, hPser]
      simp
    rw [h3, h4, List.append_nil]
  have hQser : (entryNameL (serializeCookie name v2) == nm) = true := by
    rw [beq_iff_eq, hser]
    exact entryNameL_name_append nm _ hname
  have hPname : ∀ e ∈ cookieEntries r, entryNameL e = nm → P e = false := by
    intro e hmem hename
    rw [hP]
    simp only [Bool.not_eq_false']
    exact (prefix_iff_entryName nm e hname (hwf e hmem)).mpr hename
  constructor
  · rw [hentries, List.filter_append]
    have hnil : ((cookieEntries r).filter P).filter (fun e => entryNameL e == nm) = [] := by
      rw [List.filter_eq_nil_iff]
      intro e hmem hq
      obtain ⟨hmem0, hPe⟩ := List.mem_filter.mp hmem
      rw [beq_iff_eq] at hq
      rw [hPname e hmem0 hq] at hPe
      cases hPe
    rw [hnil, List.filter_cons, hQser]
    simp
  · rw [hentries, List.filter_append]
    have hser2 : [serializeCookie name v2].filter (fun e => entryNameL e != nm) = [] := by
      rw [List.filter_cons]
      rw [show (entryNameL (serializeCookie name v2) != nm) = false by
        rw [bne]; rw [hQser]; rfl]
      simp
    have hcomm : ((cookieEntries r).filter P).filter (fun e => entryNameL e != nm) =
        (cookieEntries r).filter (fun e => entryNameL e != nm) := by
      rw [List.filter_filter]
      apply List.filter_congr
      intro e hmem
      cases hq : (entryNameL e != nm) with
      | false => rw [Bool.false_and]
      | true =>
        rw [Bool.true_and]
        cases hp : P e with
        | true => rfl
        | false =>
          exfalso
          have hne : entryNameL e ≠ nm := bne_iff_ne.mp hq
          rw [hP] at hp
          simp only [Bool.not_eq_false'] at hp
          exact hne ((prefix_iff_entryName nm e hname (hwf e hmem)).mp hp)
    rw [hser2, hcomm, List.append_nil]

def nodeResInit : NodeRes :=
  { writableEnded := false, statusCode := 200, location := none,
    setCookieHdr := some (.arr ["other=1".data, "appSession=old".data]), body := none }

theorem setCookie_replaces_witness :
    (cookieEntries ((nodeResInit.setCookie "appSession" "v1").setCookie "appSession" "v2")).filter
        (fun e => entryNameL e == "appSession".data) = [serializeCookie "appSession" "v2"] ∧
    (cookieEntries ((nodeResInit.setCookie "appSession" "v1").setCookie "appSession" "v2")).filter
        (fun e => entryNameL e != "appSession".data) =
      (cookieEntries nodeResInit).filter (fun e => entryNameL e != "appSession".data) :=
  setCookie_replaces_same_name nodeResInit "appSession" "v1" "v2" (by decide) (by decide)

/-- C4: `redirect` is a no-op once the response is finalized
(`writableEnded`): nothing about the response changes; otherwise it
writes the given status (302 at the default call site), sets a `Location`
header, finalizes the response, and writes the HTML-escaped location as
the body. -/
theorem redirect_noop_when_finalized (r : NodeRes) (location : String) (status : Nat) :
    (r.writableEnded = true → r.redirect location status = r) ∧
    (r.writableEnded = false →
      (r.redirect location status).statusCode = status ∧
      (r.redirect location status).location.isSome = true ∧
      (r.redirect location status).body = some (htmlSafe location) ∧
      (r.redirect location status).writableEnded = true) := by
  constructor <;> intro h <;> simp [NodeRes.redirect, h]

def endedRes : NodeRes :=
  { writableEnded := true, statusCode := 200, location := none,
    setCookieHdr := none, body := some "done" }

def freshRes : NodeRes :=
  { writableEnded := false, statusCode := 200, location := none,
    setCookieHdr := none, body := none }

theorem redirect_noop_witness :
    endedRes.redirect "/target" 302 = endedRes ∧
    ((freshRes.redirect "/target" 302).statusCode = 302 ∧
      (freshRes.redirect "/target" 302).location.isSome = true ∧
      (freshRes.redirect "/target" 302).body = some (htmlSafe "/target") ∧
      (freshRes.redirect "/target" 302).writableEnded = true) :=
  ⟨(redirect_noop_when_finalized endedRes "/target" 302).1 rfl,
    (redirect_noop_when_finalized freshRes "/target" 302).2 rfl⟩

/-- C10 counterexample: a `Location` header that has been set to the
empty string is falsy in JavaScript, so `redirect` writes its argument
rather than the pre-existing header value. -/
def presetEmptyLocRes : NodeRes :=
  { writableEnded := false, statusCode := 200, location := some "",
    setCookieHdr := none, body := none }

theorem redirect_empty_location_cex :
    presetEmptyLocRes.location = some "" ∧
    (presetEmptyLocRes.redirect "/fresh" 302).location = some "/fresh" ∧
    (presetEmptyLocRes.redirect "/fresh" 302).location ≠ presetEmptyLocRes.location := by
  refine ⟨rfl, rfl, ?_⟩
  decide

/-- C10 (amended): when a nonempty `Location` header has already been
set, a later `redirect` on an unfinalized response writes the
pre-existing header value (the first redirect target wins), while the
fallback body is still the HTML-escaped new location argument. -/
theorem redirect_preexisting_location_wins (r : NodeRes) (l location : String) (status : Nat)
    (hended : r.writableEnded = false) (hloc : r.location = some l) (hne : l ≠ "") :
    (r.redirect location status).location = some l ∧
    (r.redirect location status).body = some (htmlSafe location) := by
  have hbeq : (l == "") = false := by
    rw [beq_eq_false_iff_ne]
    exact hne
  simp [NodeRes.redirect, hended, hloc, hbeq]

def presetLocRes : NodeRes :=
  { writableEnded := false, statusCode := 200, location := some "/first",
    setCookieHdr := none, body := none }

theorem redirect_preexisting_witness :
    (presetLocRes.redirect "/second" 302).location = some "/first" ∧
    (presetLocRes.redirect "/second" 302).body = some (htmlSafe "/second") :=
  redirect_preexisting_location_wins presetLocRes "/first" "/second" 302 rfl rfl (by decide)

/-! ## Claims about the configuration validator -/

/-- Inversion of a successful validation: every field check succeeded
with the corresponding component of the produced configuration, and the
default-only fields took their defaulted values. -/
theorem validateConfig_ok_inv {r : RawConfig} {cfg : Config}
    (h : validateConfig r = .ok cfg) :
    checkSecret r.secret = .ok cfg.secret ∧
    checkSession r.session = .ok cfg.session ∧
    checkAuthParams r.authorizationParams = .ok cfg.authorizationParams ∧
    checkRequiredUri "baseURL" r.baseURL = .ok cfg.baseURL ∧
    checkClientID r.clientID = .ok cfg.clientID ∧
    checkClientSecret r.clientSecret cfg.authorizationParams.response_type
      r.idTokenSigningAlg = .ok cfg.clientSecret ∧
    checkIdTokenSigningAlg r.idTokenSigningAlg = .ok cfg.idTokenSigningAlg ∧
    checkRequiredUri "issuerBaseURL" r.issuerBaseURL = .ok cfg.issuerBaseURL ∧
    checkRoutes r.routes = .ok cfg.routes ∧
    cfg.clockTolerance = r.clockTolerance.getD 60 ∧
    cfg.identityClaimFilter = r.identityClaimFilter.getD defaultIdentityClaimFilter := by
  unfold validateConfig at h
  obtain ⟨secret, h1, h⟩ := bind_ok_ex h
  obtain ⟨session, h2, h⟩ := bind_ok_ex h
  obtain ⟨ap, h3, h⟩ := bind_ok_ex h
  obtain ⟨bu, h4, h⟩ := bind_ok_ex h
  obtain ⟨cid, h5, h⟩ := bind_ok_ex h
  obtain ⟨cs, h6, h⟩ := bind_ok_ex h
  obtain ⟨alg, h7, h⟩ := bind_ok_ex h
  obtain ⟨ibu, h8, h⟩ := bind_ok_ex h
  obtain ⟨rts, h9, h⟩ := bind_ok_ex h
  injection h with h
  subst h
  exact ⟨h1, h2, h3, h4, h5, h6, h7, h8, h9, rfl, rfl⟩

def defaultSessionConfig : SessionConfig :=
  { rolling := true, rollingDuration := .num 86400, absoluteDuration := .num 604800,
    name := "appSession", cookie := defaultCookieConfig }

def defaultRoutes : Routes :=
  { login := .path "/login", logout := .path "/logout", callback := "/callback",
    postLogoutRedirect := "" }

/-- C5: any raw configuration that validates while omitting the session,
routes, claim-filter, signing-algorithm and clock-tolerance fields is
given the documented defaults. -/
theorem validate_applies_documented_defaults (r : RawConfig) (cfg : Config)
    (h : validateConfig r = .ok cfg)
    (hs : r.session = none) (hr : r.routes = none)
    (hf : r.identityClaimFilter = none) (ha : r.idTokenSigningAlg = none)
    (hc : r.clockTolerance = none) :
    cfg.session.rolling = true ∧
    cfg.session.rollingDuration = NumOrBool.num 86400 ∧
    cfg.session.absoluteDuration = NumOrBool.num 604800 ∧
    cfg.session.cookie.sameSite = "Lax" ∧
    cfg.session.cookie.httpOnly = true ∧
    cfg.routes.login = PathOrFalse.path "/login" ∧
    cfg.routes.logout = PathOrFalse.path "/logout" ∧
    cfg.routes.callback = "/callback" ∧
    cfg.identityClaimFilter =
      ["aud", "iss", "iat", "exp", "nbf", "nonce", "azp", "auth_time", "s_hash",
        "at_hash", "c_hash"] ∧
    cfg.idTokenSigningAlg = "RS256" ∧
    cfg.clockTolerance = 60 := by
  obtain ⟨-, h2, -, -, -, -, h7, -, h9, h10, h11⟩ := validateConfig_ok_inv h
  rw [hs] at h2
  rw [show checkSession none = Except.ok defaultSessionConfig from rfl] at h2
  have e2 : cfg.session = defaultSessionConfig := (Except.ok.inj h2).symm
  rw [hr] at h9
  rw [show checkRoutes none = Except.ok defaultRoutes from rfl] at h9
  have e9 : cfg.routes = defaultRoutes := (Except.ok.inj h9).symm
  rw [ha] at h7
  rw [show checkIdTokenSigningAlg none = Except.ok "RS256" from rfl] at h7
  have e7 : cfg.idTokenSigningAlg = "RS256" := (Except.ok.inj h7).symm
  rw [hc] at h10
  rw [hf] at h11
  rw [e2, e9, e7, h10, h11]
  exact ⟨rfl, rfl, rfl, rfl, rfl, rfl, rfl, rfl, rfl, rfl, rfl⟩

/-- An otherwise-empty raw configuration carrying only the four required
fields. -/
def rawMinimal : RawConfig :=
  { secret := some (.str "a-very-long-secret-value"),
    baseURL := some "https://example.org",
    clientID := some "client-id",
    issuerBaseURL := some "https://issuer.example.org" }

/-- The configuration `rawMinimal` validates to: every non-required field
holds its documented default. -/
def cfgMinimal : Config :=
  { secret := .str "a-very-long-secret-value",
    session := defaultSessionConfig,
    auth0Logout := false,
    authorizationParams :=
      { response_type := "id_token", scope := "openid profile email",
        response_mode := some "form_post" },
    baseURL := "https://example.org",
    clientID := "client-id",
    clientSecret := none,
    clockTolerance := 60,
    enableTelemetry := true,
    errorOnRequiredAuth := false,
    attemptSilentLogin := false,
    identityClaimFilter := defaultIdentityClaimFilter,
    idpLogout := false,
    idTokenSigningAlg := "RS256",
    issuerBaseURL := "https://issuer.example.org",
    legacySameSiteCookie := true,
    authRequired := true,
    routes := defaultRoutes }

theorem validate_defaults_witness :
    validateConfig rawMinimal = Except.ok cfgMinimal ∧
    (cfgMinimal.session.rolling = true ∧
      cfgMinimal.session.rollingDuration = NumOrBool.num 86400 ∧
      cfgMinimal.session.absoluteDuration = NumOrBool.num 604800 ∧
      cfgMinimal.session.cookie.sameSite = "Lax" ∧
      cfgMinimal.session.cookie.httpOnly = true ∧
      cfgMinimal.routes.login = PathOrFalse.path "/login" ∧
      cfgMinimal.routes.logout = PathOrFalse.path "/logout" ∧
      cfgMinimal.routes.callback = "/callback" ∧
      cfgMinimal.identityClaimFilter =
        ["aud", "iss", "iat", "exp", "nbf", "nonce", "azp", "auth_time", "s_hash",
          "at_hash", "c_hash"] ∧
      cfgMinimal.idTokenSigningAlg = "RS256" ∧
      cfgMinimal.clockTolerance = 60) :=
  ⟨rfl, validate_applies_documented_defaults rawMinimal cfgMinimal rfl rfl rfl rfl rfl rfl⟩

/-- The `response_mode` discipline of a successful `authorizationParams`
validation: `form_post` for the implicit and hybrid flows, and for the
code flow either `query` or no value at all (an omitted `response_mode`
is left unset). -/
theorem checkAuthParams_mode {rap : Option RawAuthorizationParams} {ap : AuthorizationParams}
    (h : checkAuthParams rap = .ok ap) :
    (ap.response_type ≠ "code" → ap.response_mode = some "form_post") ∧
    (ap.response_type = "code" →
      ap.response_mode = none ∨ ap.response_mode = some "query") := by
  unfold checkAuthParams at h
  obtain ⟨rt, h1, h⟩ := bind_ok_ex h
  obtain ⟨sc, h2, h⟩ := bind_ok_ex h
  obtain ⟨rm, h3, h⟩ := bind_ok_ex h
  injection h with h
  subst h
  constructor
  · intro hne
    have hrt : (rt == "code") = false := beq_eq_false_iff_ne.mpr hne
    cases hm : (rap.getD {}).response_mode with
    | none =>
      rw [hm] at h3
      simp only [checkResponseMode, hrt, Bool.false_eq_true, if_false] at h3
      exact (Except.ok.inj h3).symm
    | some m =>
      rw [hm] at h3
      simp only [checkResponseMode, hrt, Bool.false_eq_true, if_false] at h3
      by_cases hfp : (m == "form_post") = true
      · rw [if_pos hfp] at h3
        exact (Except.ok.inj h3).symm
      · rw [if_neg hfp] at h3
        exact absurd h3 (by simp)
  · intro heq
    have hrt : (rt == "code") = true := beq_iff_eq.mpr heq
    cases hm : (rap.getD {}).response_mode with
    | none =>
      rw [hm] at h3
      simp only [checkResponseMode, hrt, if_true] at h3
      exact Or.inl (Except.ok.inj h3).symm
    | some m =>
      rw [hm] at h3
      simp only [checkResponseMode, hrt, if_true] at h3
      by_cases hq : (m == "query") = true
      · rw [if_pos hq] at h3
        exact Or.inr (Except.ok.inj h3).symm
      · rw [if_neg hq] at h3
        exact absurd h3 (by simp)

theorem checkAuthParams_rejects_code_formpost (rap : RawAuthorizationParams)
    (ht : rap.response_type = some "code") (hm : rap.response_mode = some "form_post") :
    ∀ ap, checkAuthParams (some rap) ≠ .ok ap := by
  intro ap h
  unfold checkAuthParams at h
  simp only [Option.getD_some] at h
  obtain ⟨rt, h1, h⟩ := bind_ok_ex h
  obtain ⟨sc, h2, h⟩ := bind_ok_ex h
  obtain ⟨rm, h3, h⟩ := bind_ok_ex h
  rw [ht] at h1
  rw [show checkResponseType (some "code") = Except.ok "code" from rfl] at h1
  have hrt : rt = "code" := (Except.ok.inj h1).symm
  rw [hm, hrt] at h3
  rw [show checkResponseMode "code" (some "form_post") =
    Except.error "\"authorizationParams.response_mode\" must be one of [query]" from rfl] at h3
  exact absurd h3 (by simp)

theorem checkAuthParams_rejects_noncode_query (rap : RawAuthorizationParams) (t : String)
    (ht : rap.response_type = some t) (htne : t ≠ "code") (hm : rap.response_mode = some "query") :
    ∀ ap, checkAuthParams (some rap) ≠ .ok ap := by
  intro ap h
  unfold checkAuthParams at h
  simp only [Option.getD_some] at h
  obtain ⟨rt, h1, h⟩ := bind_ok_ex h
  obtain ⟨sc, h2, h⟩ := bind_ok_ex h
  obtain ⟨rm, h3, h⟩ := bind_ok_ex h
  rw [ht] at h1
  simp only [checkResponseType] at h1
  by_cases hv : ((t == "id_token" || t == "code id_token" || t == "code") : Bool) = true
  · rw [if_pos hv] at h1
    have hrt : rt = t := (Except.ok.inj h1).symm
    have hne : (rt == "code") = false := by
      rw [hrt]
      exact beq_eq_false_iff_ne.mpr htne
    rw [hm] at h3
    simp only [checkResponseMode, hne, Bool.false_eq_true, if_false,
      show (("query" == "form_post") : Bool) = false from rfl] at h3
    exact absurd h3 (by simp)
  · rw [if_neg hv] at h1
    exact absurd h1 (by simp)

/-- C6 (amended): after defaulting, `response_mode` is `form_post`
whenever `response_type` is `id_token` or `code id_token`; whenever
`response_type` is `code`, `response_mode` is `query` or absent (an
omitted `response_mode` is left unset, not defaulted to `query`); and
validation rejects `code` combined with `form_post` as well as a
non-`code` flow combined with `query`. -/
theorem response_mode_invariant (r : RawConfig) (cfg : Config)
    (h : validateConfig r = .ok cfg) :
    (cfg.authorizationParams.response_type ≠ "code" →
      cfg.authorizationParams.response_mode = some "form_post") ∧
    (cfg.authorizationParams.response_type = "code" →
      cfg.authorizationParams.response_mode = none ∨
        cfg.authorizationParams.response_mode = some "query") ∧
    (∀ r2 : RawConfig, ∀ rap : RawAuthorizationParams,
      r2.authorizationParams = some rap → rap.response_type = some "code" →
      rap.response_mode = some "form_post" → isOkE (validateConfig r2) = false) ∧
    (∀ r2 : RawConfig, ∀ rap : RawAuthorizationParams, ∀ t : String,
      r2.authorizationParams = some rap → rap.response_type = some t → t ≠ "code" →
      rap.response_mode = some "query" → isOkE (validateConfig r2) = false) := by
  obtain ⟨-, -, h3, -, -, -, -, -, -, -, -⟩ := validateConfig_ok_inv h
  have hmode := checkAuthParams_mode h3
  refine ⟨hmode.1, hmode.2, ?_, ?_⟩
  · intro r2 rap hap ht hm
    cases hv : validateConfig r2 with
    | error e => rfl
    | ok cfg2 =>
      exfalso
      obtain ⟨-, -, hca, -, -, -, -, -, -, -, -⟩ := validateConfig_ok_inv hv
      rw [hap] at hca
      exact checkAuthParams_rejects_code_formpost rap ht hm cfg2.authorizationParams hca
  · intro r2 rap t hap ht htne hm
    cases hv : validateConfig r2 with
    | error e => rfl
    | ok cfg2 =>
      exfalso
      obtain ⟨-, -, hca, -, -, -, -, -, -, -, -⟩ := validateConfig_ok_inv hv
      rw [hap] at hca
      exact checkAuthParams_rejects_noncode_query rap t ht htne hm cfg2.authorizationParams hca

/-- A raw configuration selecting the code flow and omitting
`response_mode`. -/
def rawCodeNoMode : RawConfig :=
  { rawMinimal with
    authorizationParams := some { response_type := some "code" },
    clientSecret := some "code-flow-client-secret" }

def cfgCodeNoMode : Config :=
  { cfgMinimal with
    authorizationParams :=
      { response_type := "code", scope := "openid profile email", response_mode := none },
    clientSecret := some "code-flow-client-secret" }

theorem response_mode_code_unset_cex :
    validateConfig rawCodeNoMode = Except.ok cfgCodeNoMode ∧
    cfgCodeNoMode.authorizationParams.response_type = "code" ∧
    cfgCodeNoMode.authorizationParams.response_mode = none ∧
    cfgCodeNoMode.authorizationParams.response_mode ≠ some "query" :=
  ⟨rfl, rfl, rfl, by decide⟩

def rawCodeFormPost : RawConfig :=
  { rawMinimal with
    authorizationParams := some { response_type := some "code", response_mode := some "form_post" },
    clientSecret := some "code-flow-client-secret" }

theorem response_mode_invariant_witness :
    cfgMinimal.authorizationParams.response_mode = some "form_post" ∧
    isOkE (validateConfig rawCodeFormPost) = false := by
  have h := response_mode_invariant rawMinimal cfgMinimal rfl
  exact ⟨h.1 (by decide),
    h.2.2.1 rawCodeFormPost { response_type := some "code", response_mode := some "form_post" }
      rfl rfl rfl⟩

/-- C7: with every other field passing its check, an omitted
`clientSecret` is an error exactly when the resolved `response_type`
includes `code` (first) or the raw `idTokenSigningAlg` is HMAC-based
(second), with the error naming `clientSecret`; when neither condition
holds the configuration validates with no client secret. -/
theorem clientSecret_requirement (r : RawConfig) (s : SecretVal) (sc : SessionConfig)
    (ap : AuthorizationParams) (bu cid alg ibu : String) (rts : Routes)
    (h1 : checkSecret r.secret = .ok s)
    (h2 : checkSession r.session = .ok sc)
    (h3 : checkAuthParams r.authorizationParams = .ok ap)
    (h4 : checkRequiredUri "baseURL" r.baseURL = .ok bu)
    (h5 : checkClientID r.clientID = .ok cid)
    (h7 : checkIdTokenSigningAlg r.idTokenSigningAlg = .ok alg)
    (h8 : checkRequiredUri "issuerBaseURL" r.issuerBaseURL = .ok ibu)
    (h9 : checkRoutes r.routes = .ok rts)
    (hcs : r.clientSecret = none) :
    (includesStr ap.response_type "code" = true →
      validateConfig r =
        .error "\"clientSecret\" is required for a response_type that includes code") ∧
    (includesStr ap.response_type "code" = false → rawAlgIsHS r.idTokenSigningAlg = true →
      validateConfig r =
        .error "\"clientSecret\" is required for ID tokens with HMAC based algorithms") ∧
    (includesStr ap.response_type "code" = false → rawAlgIsHS r.idTokenSigningAlg = false →
      ∃ cfg, validateConfig r = .ok cfg ∧ cfg.clientSecret = none) := by
  refine ⟨?_, ?_, ?_⟩
  · intro hcode
    have hccs : checkClientSecret r.clientSecret ap.response_type r.idTokenSigningAlg =
        Except.error "\"clientSecret\" is required for a response_type that includes code" := by
      rw [hcs]
      simp [checkClientSecret, hcode]
    simp only [validateConfig, h1, h2, h3, h4, h5, hccs, ok_bind, error_bind]
  · intro hcode hhs
    have hccs : checkClientSecret r.clientSecret ap.response_type r.idTokenSigningAlg =
        Except.error "\"clientSecret\" is required for ID tokens with HMAC based algorithms" := by
      rw [hcs]
      simp [checkClientSecret, hcode, hhs]
    simp only [validateConfig, h1, h2, h3, h4, h5, hccs, ok_bind, error_bind]
  · intro hcode hhs
    have hccs : checkClientSecret r.clientSecret ap.response_type r.idTokenSigningAlg =
        Except.ok none := by
      rw [hcs]
      simp [checkClientSecret, hcode, hhs]
    have hval : ∃ cfg, validateConfig r = Except.ok cfg := by
      simp only [validateConfig, h1, h2, h3, h4, h5, hccs, h7, h8, h9, ok_bind]
      exact ⟨_, rfl⟩
    obtain ⟨cfg, hcfg⟩ := hval
    refine ⟨cfg, hcfg, ?_⟩
    obtain ⟨-, -, h3b, -, -, h6, -, -, -, -, -⟩ := validateConfig_ok_inv hcfg
    have hap : cfg.authorizationParams = ap := by
      rw [h3] at h3b
      exact (Except.ok.inj h3b).symm
    rw [hap, hccs] at h6
    exact (Except.ok.inj h6).symm

def rawCodeNoSecret : RawConfig :=
  { rawMinimal with authorizationParams := some { response_type := some "code" } }

theorem clientSecret_requirement_witness :
    validateConfig rawCodeNoSecret =
      Except.error "\"clientSecret\" is required for a response_type that includes code" ∧
    isOkE (validateConfig rawMinimal) = true := by
  constructor
  · exact (clientSecret_requirement rawCodeNoSecret (.str "a-very-long-secret-value")
      defaultSessionConfig
      { response_type := "code", scope := "openid profile email", response_mode := none }
      "https://example.org" "client-id" "RS256" "https://issuer.example.org" defaultRoutes
      rfl rfl rfl rfl rfl rfl rfl rfl rfl).1 rfl
  · obtain ⟨cfg, hcfg, -⟩ := (clientSecret_requirement rawMinimal
      (.str "a-very-long-secret-value") defaultSessionConfig
      { response_type := "id_token", scope := "openid profile email",
        response_mode := some "form_post" }
      "https://example.org" "client-id" "RS256" "https://issuer.example.org" defaultRoutes
      rfl rfl rfl rfl rfl rfl rfl rfl rfl).2.2 rfl rfl
    rw [hcfg]
    rfl

/-- C8 (amended): with `session.rolling = false`, an `absoluteDuration`
explicitly supplied as a boolean (the disabled form `false`) is rejected
with the descriptive error naming the field, but an omitted
`absoluteDuration` is not required: it is defaulted to `604800` and the
configuration is accepted. -/
theorem absoluteDuration_defaulted (rs : RawSessionConfig) (b : Bool) :
    (rs.rolling = some false →
      (rs.rollingDuration = none ∨ rs.rollingDuration = some (NumOrBool.bool false)) →
      rs.absoluteDuration = some (NumOrBool.bool b) →
      checkSession (some rs) =
        .error "\"session.absoluteDuration\" must be provided an integer value when \"session.rolling\" is false") ∧
    (∀ sc2 : SessionConfig, rs.absoluteDuration = none →
      checkSession (some rs) = .ok sc2 → sc2.absoluteDuration = NumOrBool.num 604800) := by
  constructor
  · intro hroll hrd habs
    rcases hrd with hrd | hrd <;>
      simp [checkSession, checkRollingDuration, checkAbsoluteDuration, hroll, hrd, habs,
        ok_bind, error_bind]
  · intro sc2 habs h
    unfold checkSession at h
    simp only [Option.getD_some] at h
    obtain ⟨rd, hrd, h⟩ := bind_ok_ex h
    obtain ⟨ad, had, h⟩ := bind_ok_ex h
    obtain ⟨nm, hnm, h⟩ := bind_ok_ex h
    obtain ⟨ck, hck, h⟩ := bind_ok_ex h
    injection h with h
    subst h
    rw [habs] at had
    rw [show checkAbsoluteDuration (rs.rolling.getD true) none =
      Except.ok (NumOrBool.num 604800) from rfl] at had
    exact (Except.ok.inj had).symm

def rawNonRolling : RawConfig :=
  { rawMinimal with session := some { rolling := some false } }

def cfgNonRolling : Config :=
  { cfgMinimal with
    session := { defaultSessionConfig with
      rolling := false, rollingDuration := NumOrBool.bool false } }

theorem absoluteDuration_omitted_accepted_cex :
    rawNonRolling.session.bind RawSessionConfig.absoluteDuration = none ∧
    rawNonRolling.session.bind RawSessionConfig.rolling = some false ∧
    validateConfig rawNonRolling = Except.ok cfgNonRolling ∧
    cfgNonRolling.session.rolling = false ∧
    cfgNonRolling.session.absoluteDuration = NumOrBool.num 604800 :=
  ⟨rfl, rfl, rfl, rfl, rfl⟩

def rsNonRollingFalseAbs : RawSessionConfig :=
  { rolling := some false, absoluteDuration := some (NumOrBool.bool false) }

theorem absoluteDuration_defaulted_witness :
    checkSession (some rsNonRollingFalseAbs) =
      Except.error "\"session.absoluteDuration\" must be provided an integer value when \"session.rolling\" is false" ∧
    cfgNonRolling.session.absoluteDuration = NumOrBool.num 604800 := by
  constructor
  · exact (absoluteDuration_defaulted rsNonRollingFalseAbs false).1 rfl (Or.inl rfl) rfl
  · exact (absoluteDuration_defaulted { rolling := some false } false).2
      cfgNonRolling.session rfl rfl

/-- C9: a raw configuration whose `idTokenSigningAlg` lowercases to
`none` never validates (the validator rejects it, surfaced by `get` as a
thrown `TypeError`), and no validated configuration carries a signing
algorithm that lowercases to `none`. -/
theorem validate_rejects_alg_none (r : RawConfig) :
    (∀ s, r.idTokenSigningAlg = some s → toLowerS s = "none" →
      isOkE (validateConfig r) = false) ∧
    (∀ cfg, validateConfig r = .ok cfg → toLowerS cfg.idTokenSigningAlg ≠ "none") := by
  have key : ∀ cfg, validateConfig r = .ok cfg → toLowerS cfg.idTokenSigningAlg ≠ "none" := by
    intro cfg h
    obtain ⟨-, -, -, -, -, -, h7, -, -, -, -⟩ := validateConfig_ok_inv h
    cases halg : r.idTokenSigningAlg with
    | none =>
      rw [halg] at h7
      have e : cfg.idTokenSigningAlg = "RS256" := (Except.ok.inj h7).symm
      rw [e]
      decide
    | some s =>
      rw [halg] at h7
      simp only [checkIdTokenSigningAlg] at h7
      by_cases hl : (toLowerS s == "none") = true
      · rw [if_pos hl] at h7
        exact absurd h7 (by simp)
      · rw [if_neg hl] at h7
        have e : cfg.idTokenSigningAlg = s := (Except.ok.inj h7).symm
        rw [e]
        intro hcontra
        exact hl (beq_iff_eq.mpr hcontra)
  refine ⟨?_, key⟩
  intro s hs hlow
  cases hv : validateConfig r with
  | error e => rfl
  | ok cfg =>
    exfalso
    obtain ⟨-, -, -, -, -, -, h7, -, -, -, -⟩ := validateConfig_ok_inv hv
    rw [hs] at h7
    simp only [checkIdTokenSigningAlg] at h7
    rw [if_pos (beq_iff_eq.mpr hlow)] at h7
    exact absurd h7 (by simp)

def rawNoneAlg : RawConfig :=
  { rawMinimal with idTokenSigningAlg := some "NoNe" }

theorem validate_rejects_alg_none_witness :
    isOkE (validateConfig rawNoneAlg) = false ∧ toLowerS "NoNe" = "none" :=
  ⟨(validate_rejects_alg_none rawNoneAlg).1 "NoNe" rfl (by decide), by decide⟩

end NextAuth
